import Mathlib

/-!
Verification of the Neotel ETL automation script (src/main.py) against its
natural-language specification.  The extraction pipeline's pure control-flow
skeleton is embedded shallowly: browser effects become explicit environment
records whose fields say how each fallible primitive behaves, durations are
natural numbers (seconds) or rationals, Python strings are modelled as
character lists, and Python exceptions become Except values.
-/

/- ====================================================================
   Section 1: retry policies (tenacity @retry on login_neotel, main.py:535-542).
   The decorator is tenacity's: stop_after_attempt(3),
   wait_exponential(multiplier=2, min=4, max=40).  tenacity computes the
   wait after the n-th failed attempt as
   max(max(0, min), min(multiplier * 2^n, max)) and sleeps only when a
   further attempt is allowed by the stop condition.
   ==================================================================== -/

/-- tenacity wait_exponential: wait after failed attempt number `attempt`
(1-indexed), clamped between `minD` and `maxD`.  All quantities involved in
the login policy are integral, so seconds are modelled as naturals. -/
def waitExponential (multiplier minD maxD : ℕ) (attempt : ℕ) : ℕ :=
  max (max 0 minD) (min (multiplier * 2 ^ attempt) maxD)

/-- Wait curve of the login retry policy (multiplier=2, min=4, max=40),
main.py:537. -/
def loginWait (attempt : ℕ) : ℕ :=
  waitExponential 2 4 40 attempt

/-- Outcome of one attempt of the wrapped unit of work: success, a
retryable (transient) failure, or a non-retryable failure. -/
inductive AttemptResult
  | ok
  | transient
  | fatal
deriving DecidableEq

/-- tenacity retry loop.  `n` is the current attempt number, `r` the number
of attempts still allowed after the current one.  Returns the list of sleep
durations performed and whether the protected call eventually succeeded.
After a failed attempt the loop first checks the retryable predicate
(a `fatal` outcome propagates immediately), then the stop condition
(attempt exhaustion propagates immediately), and only then sleeps. -/
def tenacityGo (wait : ℕ → ℕ) (att : ℕ → AttemptResult) : ℕ → ℕ → List ℕ × Bool
  | _, 0 => ([], false)
  | n, r + 1 =>
    match att n with
    | AttemptResult.ok => ([], true)
    | AttemptResult.fatal => ([], false)
    | AttemptResult.transient =>
      if r = 0 then ([], false)
      else
        let rest := tenacityGo wait att (n + 1) r
        (wait n :: rest.1, rest.2)

/-- Run a tenacity-decorated call with `stop_after_attempt stop`. -/
def tenacityRun (stop : ℕ) (wait : ℕ → ℕ) (att : ℕ → AttemptResult) : List ℕ × Bool :=
  tenacityGo wait att 1 stop

/-- The login call under its decorator (stop_after_attempt(3)). -/
def tenacityRunLogin (att : ℕ → AttemptResult) : List ℕ × Bool :=
  tenacityRun 3 loginWait att

/-- A unit of work that raises a transient (retry-classified) failure on
every attempt. -/
def siempreTransitorio : ℕ → AttemptResult :=
  fun _ => AttemptResult.transient

/- ====================================================================
   Section 2: download watcher (esperar_descarga_completa, main.py:295-347),
   directory snapshots (obtener_archivos_en_directorio, main.py:280-292) and
   the caller's post-timeout recheck (descargar_reporte, main.py:1090-1099).
   Python strings are modelled as lists of characters; a directory state at
   one polling tick is a snapshot of file names plus their sizes; the
   timeout is modelled by the finite length of the observed trace: when the
   trace is exhausted the deadline has passed and TimeoutError is raised.
   ==================================================================== -/

/-- In-progress download sentinel suffixes filtered out by the watcher
(main.py:326-331): Chrome, Firefox and the generic temporary suffix. -/
def sufijosIncompletos : List (List Char) :=
  [".crdownload".toList, ".part".toList, ".tmp".toList]

/-- f.endswith(suf) for one of the recognized sentinel suffixes. -/
def esArchivoIncompleto (f : List Char) : Bool :=
  sufijosIncompletos.any (fun suf => List.isSuffixOf suf f)

/-- One observed state of the download directory: the set of file names
present (as a list, in the set's iteration order) and each file's size. -/
structure Snapshot where
  archivos : List (List Char)
  tam : List Char → ℕ

/-- One polling tick of the watcher body (main.py:322-340): new names are
current minus baseline, sentinel-suffixed names are discarded, and the
first remaining candidate is returned only if its size is non-zero. -/
def tickResultado (previos : List (List Char)) (snap : Snapshot) : Option (List Char) :=
  let nuevos := snap.archivos.filter (fun f => !previos.contains f)
  let completos := nuevos.filter (fun f => !esArchivoIncompleto f)
  completos.head?.bind (fun f => if 0 < snap.tam f then some f else none)

/-- Watcher loop (main.py:321-347): one snapshot per tick; on an
unsuccessful tick it sleeps the current interval and grows it by the factor
1.5 capped at DOWNLOAD_CHECK_INTERVAL_MAX = 6; exhausting the trace is the
timeout.  Returns the outcome together with the sleeps performed. -/
def esperarGo (previos : List (List Char)) :
    List Snapshot → ℚ → Except Unit (List Char) × List ℚ
  | [], _ => (Except.error (), [])
  | snap :: resto, intervalo =>
    match tickResultado previos snap with
    | some f => (Except.ok f, [])
    | none =>
      let r := esperarGo previos resto (min (intervalo * (3 / 2)) 6)
      (r.1, intervalo :: r.2)

/-- esperar_descarga_completa: the interval starts at
DOWNLOAD_CHECK_INTERVAL_MIN = 1 second (main.py:319). -/
def esperar_descarga_completa (previos : List (List Char)) (traza : List Snapshot) :
    Except Unit (List Char) :=
  (esperarGo previos traza 1).1

/-- The sleep durations performed by one run of the watcher. -/
def esperasDescarga (previos : List (List Char)) (traza : List Snapshot) : List ℚ :=
  (esperarGo previos traza 1).2

/-- Download stage of descargar_reporte (main.py:1090-1099): run the
watcher; on TimeoutError take one more snapshot (`finSnap`) and return the
first name of current minus baseline if any, with no suffix or size
filtering; otherwise re-raise. -/
def descargaTrasModal (previos : List (List Char)) (traza : List Snapshot)
    (finSnap : Snapshot) : Except Unit (List Char) :=
  match esperar_descarga_completa previos traza with
  | Except.ok f => Except.ok f
  | Except.error _ =>
    match (finSnap.archivos.filter (fun f => !previos.contains f)).head? with
    | some f => Except.ok f
    | none => Except.error ()

/-- Concrete directory state whose only entry is an in-progress Chrome
download, used to exhibit the unfiltered post-timeout recheck. -/
def snapSoloCrdownload : Snapshot :=
  Snapshot.mk ["r.csv.crdownload".toList] (fun _ => 1)

/-- Baseline and trace of the specification's own example: baseline a.txt,
then a tick with the partial file, then a tick with the completed file. -/
def previosEjemplo : List (List Char) := ["a.txt".toList]

def snapEjemploParcial : Snapshot :=
  Snapshot.mk ["a.txt".toList, "report23.csv.crdownload".toList] (fun _ => 0)

def snapEjemploListo : Snapshot :=
  Snapshot.mk ["a.txt".toList, "report23.csv".toList]
    (fun f => if f = "report23.csv".toList then 100 else 0)

def trazaEjemplo : List Snapshot := [snapEjemploParcial, snapEjemploListo]

/- ====================================================================
   Section 3: business date (calcular_fecha_ayer, main.py:201-209).
   The source computes datetime.now() - timedelta(days=1) and formats it
   with strftime("%d/%m/%Y").  Subtracting one day from a proleptic
   Gregorian calendar date is embedded below; the specification-side
   description is certified by the independent successor function: the
   computed date is the unique calendar day whose successor is today.
   ==================================================================== -/

/-- A Gregorian calendar date; the year is an integer so year boundaries
need no side condition. -/
structure Fecha where
  anio : ℤ
  mes : ℕ
  dia : ℕ
deriving DecidableEq

/-- Gregorian leap-year rule. -/
def esBisiesto (y : ℤ) : Bool :=
  y % 4 = 0 && (y % 100 != 0 || y % 400 = 0)

/-- Number of days of month `m` of year `y` (months 1..12). -/
def diasEnMes (y : ℤ) (m : ℕ) : ℕ :=
  if m = 2 then (if esBisiesto y then 29 else 28)
  else if m = 4 || m = 6 || m = 9 || m = 11 then 30
  else 31

/-- Validity of a calendar date. -/
def fechaValida (d : Fecha) : Prop :=
  1 ≤ d.mes ∧ d.mes ≤ 12 ∧ 1 ≤ d.dia ∧ d.dia ≤ diasEnMes d.anio d.mes

instance (d : Fecha) : Decidable (fechaValida d) := by
  unfold fechaValida; infer_instance

/-- datetime.now() - timedelta(days=1): one calendar day back, rolling over
month and year boundaries. -/
def restarUnDia (d : Fecha) : Fecha :=
  if 2 ≤ d.dia then Fecha.mk d.anio d.mes (d.dia - 1)
  else if 2 ≤ d.mes then Fecha.mk d.anio (d.mes - 1) (diasEnMes d.anio (d.mes - 1))
  else Fecha.mk (d.anio - 1) 12 31

/-- Calendar successor (the day after), used only to state what "minus one
calendar day" means independently of restarUnDia. -/
def sigDia (d : Fecha) : Fecha :=
  if d.dia < diasEnMes d.anio d.mes then Fecha.mk d.anio d.mes (d.dia + 1)
  else if d.mes < 12 then Fecha.mk d.anio (d.mes + 1) 1
  else Fecha.mk (d.anio + 1) 1 1

/-- Zero-padded two-digit field of strftime (%d and %m). -/
def pad2 (n : ℕ) : String :=
  if n < 10 then "0" ++ toString n else toString n

/-- strftime("%d/%m/%Y") (years of interest have four digits). -/
def strftimeDMY (d : Fecha) : String :=
  pad2 d.dia ++ "/" ++ pad2 d.mes ++ "/" ++ toString d.anio

/-- calcular_fecha_ayer as a function of the current date. -/
def calcular_fecha_ayer (hoy : Fecha) : String :=
  strftimeDMY (restarUnDia hoy)

/- ====================================================================
   Section 4: extraction driver (ejecutar_extraccion, main.py:1122-1181).
   The per-report loop: descargar_reporte (already wrapped in its own
   retry policy) either yields a file path or raises; on an exception the
   driver logs, runs a best-effort navigation recovery and continues with
   the next descriptor.  The recovery block itself can raise (its second
   navegar_a_reportes call is unprotected), which aborts the run; it is
   abstracted as a fallible step.
   ==================================================================== -/

/-- A configured report descriptor (REPORTES, main.py:94-97). -/
structure Reporte where
  id : List Char
  nombre : List Char

/-- Per-report loop of ejecutar_extraccion (main.py:1154-1167): a success
appends the path and continues; a failure runs the recovery step and, if
that recovers, continues with the next descriptor; a raising recovery
propagates out of the loop. -/
def ejecutarExtraccionLoop (descargar : Reporte → Except (List Char) (List Char))
    (recuperar : Reporte → Except (List Char) Unit) :
    List Reporte → Except (List Char) (List (List Char))
  | [] => Except.ok []
  | r :: resto =>
    match descargar r with
    | Except.ok archivo =>
      match ejecutarExtraccionLoop descargar recuperar resto with
      | Except.ok rutas => Except.ok (archivo :: rutas)
      | Except.error e => Except.error e
    | Except.error _ =>
      match recuperar r with
      | Except.ok _ => ejecutarExtraccionLoop descargar recuperar resto
      | Except.error e => Except.error e

/-- Modelled from the spec (section 3, RunContext): the ordered sequence of
per-report ExtractionOutcome values, Success with the file path or Failed
with the reason, in configured order.  The code itself keeps only the
success paths; this definition transcribes the specification's data model
for comparison with the code's behaviour. -/
inductive ExtractionOutcome
  | success (ruta : List Char)
  | failed (razon : List Char)
deriving DecidableEq

/-- Modelled from the spec: RunContext outcome list for a run. -/
def runContextOutcomes (descargar : Reporte → Except (List Char) (List Char))
    (reportes : List Reporte) : List ExtractionOutcome :=
  reportes.map (fun r =>
    match descargar r with
    | Except.ok ruta => ExtractionOutcome.success ruta
    | Except.error e => ExtractionOutcome.failed e)

/-- The success projection used to compare the spec RunContext with the
list of paths the code returns. -/
def rutaDeOutcome : ExtractionOutcome → Option (List Char)
  | ExtractionOutcome.success ruta => some ruta
  | ExtractionOutcome.failed _ => none

/- ====================================================================
   Section 5: parameter-modal handler (manejar_modal_parametros,
   main.py:767-982).  Every step before the final submit-button search is
   wrapped in try/except and only logs on failure; the return value is
   decided solely by whether some candidate submit selector matched and
   was clicked.  The environment records how the remote UI behaves.
   ==================================================================== -/

/-- Navigation context the handler ends up in after context detection. -/
inductive ModalContexto
  | ventanaNueva
  | iframeModal
  | contextoActual
deriving DecidableEq

/-- Behaviour of the remote UI during one modal interaction.
`selectores` holds, for each of the candidate submit selectors in order
(main.py:941-950), whether that selector matched a clickable control. -/
structure ModalEntorno where
  ventanaNueva : Bool
  hayIframes : Bool
  cambioIframeFalla : Bool
  cargaParamsOk : Bool
  camposFechaOk : Bool
  selectores : List Bool

/-- Observable result of one run of the handler: the returned Bool plus the
context reached and the non-fatal step outcomes (logged only). -/
structure ModalResultado where
  exito : Bool
  contexto : ModalContexto
  usoUltimosParams : Bool
  fechasEstablecidas : Bool
deriving DecidableEq

/-- manejar_modal_parametros: context detection (new window wins; else last
iframe if present and switchable; else stay, main.py:794-810), best-effort
parameter reload and date assignment (non-fatal, main.py:823-932), then the
ordered submit-selector search; the function returns true exactly when one
candidate matched (main.py:952-982). -/
def manejar_modal_parametros (e : ModalEntorno) : ModalResultado :=
  let contexto :=
    if e.ventanaNueva then ModalContexto.ventanaNueva
    else if e.hayIframes && !e.cambioIframeFalla then ModalContexto.iframeModal
    else ModalContexto.contextoActual
  let clickeado := e.selectores.any (fun b => b)
  ModalResultado.mk clickeado contexto e.cargaParamsOk e.camposFechaOk

/-- Environment with ambiguous navigation context (no popup, no iframe)
whose submit control is nevertheless found by the sixth candidate selector
(the generic input of type submit). -/
def entornoAmbiguo : ModalEntorno :=
  ModalEntorno.mk false false false false false
    [false, false, false, false, false, true, false, false]

/- ====================================================================
   Section 6: context recovery (cerrar_modal_y_volver, main.py:985-1027).
   The whole body is inside try/except; the except arm performs a forced
   reset that is itself inside try/except pass.  Primitive driver calls are
   modelled as fallible actions recorded in an environment.
   ==================================================================== -/

/-- Outcome of the bounded wait for the modal overlay to disappear
(main.py:1011-1016): cleared in time, timed out (caught inline), or an
unexpected exception (escapes to the outer handler). -/
inductive EsperaModalResultado
  | despejado
  | vencido
  | fallo
deriving DecidableEq

/-- How each driver primitive behaves during one recovery call. -/
structure RecuperacionEntorno where
  handles : List (List Char)
  handleOriginal : List Char
  cambiarVentana : List Char → Except Unit Unit
  cerrarVentana : List Char → Except Unit Unit
  volverRaiz : Except Unit Unit
  esperaModal : EsperaModalResultado
  resetRaiz : Except Unit Unit
  resetPrimeraVentana : Except Unit Unit

/-- Closing every handle except the baseline (main.py:997-1001). -/
def cerrarVentanasExtra (e : RecuperacionEntorno) : List (List Char) → Except Unit Unit
  | [] => Except.ok ()
  | h :: hs =>
    if h = e.handleOriginal then cerrarVentanasExtra e hs
    else
      match e.cambiarVentana h with
      | Except.error x => Except.error x
      | Except.ok _ =>
        match e.cerrarVentana h with
        | Except.error x => Except.error x
        | Except.ok _ => cerrarVentanasExtra e hs

/-- Body of the outer try of cerrar_modal_y_volver (main.py:993-1019). -/
def cerrarModalCuerpo (e : RecuperacionEntorno) : Except Unit Unit :=
  let paso1 :=
    if 1 < e.handles.length then
      match cerrarVentanasExtra e e.handles with
      | Except.error x => Except.error x
      | Except.ok _ => e.cambiarVentana e.handleOriginal
    else e.volverRaiz
  match paso1 with
  | Except.error x => Except.error x
  | Except.ok _ =>
    match e.esperaModal with
    | EsperaModalResultado.fallo => Except.error ()
    | _ => Except.ok ()

/-- cerrar_modal_y_volver: the outer except logs and runs the forced reset,
whose own failures are swallowed by the inner except-pass
(main.py:1021-1027). -/
def cerrar_modal_y_volver (e : RecuperacionEntorno) : Except Unit Unit :=
  match cerrarModalCuerpo e with
  | Except.ok _ => Except.ok ()
  | Except.error _ =>
    match e.resetRaiz with
    | Except.error _ => Except.ok ()
    | Except.ok _ =>
      match e.resetPrimeraVentana with
      | _ => Except.ok ()

/- ====================================================================
   Section 7: report selector (seleccionar_fila_reporte, main.py:662-725).
   The Infragistics grid script returns a tri-state string; "OK" selects,
   "GRID_NOT_FOUND" returns False with no fallback, anything else
   ("ID_NOT_FOUND" or "ERROR: ...") goes to the DOM fallback; any raised
   exception (including a fallback wait timeout) hits the outer except and
   returns False.
   ==================================================================== -/

/-- Result of the injected Infragistics row-lookup script. -/
inductive ResultadoJs
  | okSeleccion
  | gridNoEncontrado
  | idNoEncontrado
  | errorJs
deriving DecidableEq

/-- Behaviour of the browser during one selection: the script execution
outcome (execute_script itself can raise) and whether the DOM fallback
(presence wait plus synthetic click) succeeds. -/
structure SeleccionEntorno where
  scriptJs : Except Unit ResultadoJs
  fallbackDom : Except Unit Unit

/-- Observable result: the returned Bool and whether the DOM fallback was
attempted. -/
structure SeleccionResultado where
  exito : Bool
  fallbackIntentado : Bool
deriving DecidableEq

/-- seleccionar_fila_reporte. -/
def seleccionar_fila_reporte (e : SeleccionEntorno) : SeleccionResultado :=
  match e.scriptJs with
  | Except.error _ => SeleccionResultado.mk false false
  | Except.ok ResultadoJs.okSeleccion => SeleccionResultado.mk true false
  | Except.ok ResultadoJs.gridNoEncontrado => SeleccionResultado.mk false false
  | Except.ok _ =>
    match e.fallbackDom with
    | Except.ok _ => SeleccionResultado.mk true true
    | Except.error _ => SeleccionResultado.mk false true

/- ====================================================================
   Section 8: configuration loading and process exit codes
   (obtener_variable_entorno, main.py:55-72; module-level constants,
   main.py:81-87; main, main.py:1639-1708).  The six required variables are
   read when the module is imported, before main() runs; an EnvironmentError
   raised there is unhandled, and CPython exits with status 1 on an
   unhandled exception.  main's own handler maps EnvironmentError to
   sys.exit(2) and any other exception to sys.exit(1); zero downloaded
   files and zero transformable rows call sys.exit(1) explicitly.
   ==================================================================== -/

/-- os.getenv as an environment mapping names to optional values. -/
def Entorno : Type := List Char → Option (List Char)

/-- obtener_variable_entorno: raises (Except.error) when a required
variable is absent or empty, returns "" for an absent optional one. -/
def obtener_variable_entorno (env : Entorno) (nombre : List Char)
    (obligatoria : Bool) : Except (List Char) (List Char) :=
  match env nombre with
  | none => if obligatoria then Except.error nombre else Except.ok []
  | some v => if obligatoria && v.isEmpty then Except.error nombre else Except.ok v

/-- The six required secret variables read at import (main.py:81-87). -/
def variablesRequeridas : List (List Char) :=
  ["NEOTEL_USER".toList, "NEOTEL_PASS".toList, "SQL_SERVER".toList,
   "SQL_DATABASE".toList, "SQL_USER".toList, "SQL_PASSWORD".toList]

/-- Module import: evaluate the six mandatory lookups in order; the first
failure propagates. -/
def cargaModulo (env : Entorno) : Except (List Char) (List (List Char)) :=
  variablesRequeridas.mapM (fun n => obtener_variable_entorno env n true)

/-- Ways the body of main() can end once the module loaded. -/
inductive ResultadoMain
  | exitoso
  | sinArchivos
  | sinDatos
  | errorEntornoVar
  | errorGenerico
deriving DecidableEq

/-- Exit code produced by main's own control flow (main.py:1667-1708):
0 on success, sys.exit(1) for no files / no data / a generic exception,
sys.exit(2) from the except EnvironmentError arm. -/
def codigoSalidaMain : ResultadoMain → ℕ
  | ResultadoMain.exitoso => 0
  | ResultadoMain.sinArchivos => 1
  | ResultadoMain.sinDatos => 1
  | ResultadoMain.errorEntornoVar => 2
  | ResultadoMain.errorGenerico => 1

/-- Exit code of the whole script: the required variables are read at
module import (main.py:81-87), so a missing secret raises before main()
is entered and the interpreter exits with status 1 (unhandled exception);
only when the import succeeds does main() run and decide the code. -/
def codigoSalidaScript (env : Entorno) (correr : List (List Char) → ResultadoMain) : ℕ :=
  match cargaModulo env with
  | Except.error _ => 1
  | Except.ok creds => codigoSalidaMain (correr creds)

/-- An environment missing NEOTEL_USER but holding every other secret. -/
def entornoSinUsuario : Entorno :=
  fun n => if n = "NEOTEL_USER".toList then none else some "x".toList

/- ====================================================================
   Section 9: time-value conversion (convertir_tiempo_a_minutos,
   main.py:425-462).  Values feeding the transform are null/NaN markers,
   strings or numbers.  int() and float() are modelled on their full ASCII
   grammar: surrounding whitespace, an optional sign and digit runs with
   underscore separators for int(); additionally an optional fractional
   part, e/E exponent notation and the case-insensitive inf/infinity/nan
   literals for float(), whose non-finite results get their own
   constructors.  Arithmetic on the finite values is modelled exactly over
   the rationals.
   ==================================================================== -/

/-- A cell value as seen by the transform phase. -/
inductive Valor
  | nulo
  | noNumero
  | texto (s : List Char)
  | numero (q : ℚ)

/-- pd.isna. -/
def pdIsna : Valor → Bool
  | Valor.nulo => true
  | Valor.noNumero => true
  | _ => false

/-- The first configured report (id 23, main.py:95). -/
def reporteConducta : Reporte :=
  Reporte.mk "23".toList "Conducta - Agentes".toList

/-- The second configured report (id 24, main.py:96). -/
def reporteEstados : Reporte :=
  Reporte.mk "24".toList "Estados operativos - Agentes".toList

/-- A run in which report 23 exhausts its retries and report 24 downloads. -/
def descargarEjemplo : Reporte → Except (List Char) (List Char) :=
  fun r =>
    if r.id = "23".toList then Except.error "reintentos agotados".toList
    else Except.ok "estados.csv".toList

/-- A recovery step that always restores the report list. -/
def recuperarEjemplo : Reporte → Except (List Char) Unit :=
  fun _ => Except.ok ()

/-- A selection environment whose grid script reports GRID_NOT_FOUND. -/
def entornoGridNoEncontrado : SeleccionEntorno :=
  SeleccionEntorno.mk (Except.ok ResultadoJs.gridNoEncontrado) (Except.error ())

/- ====================================================================
   Helper lemmas about the retry policy.
   ==================================================================== -/

theorem loginWait_formula : ∀ n : ℕ, 1 ≤ n → loginWait n = min (4 * 2 ^ (n - 1)) 40 := by
  intro n hn
  obtain ⟨k, rfl⟩ : ∃ k, n = 1 + k := ⟨n - 1, by omega⟩
  have hform : 2 * 2 ^ (1 + k) = 4 * 2 ^ k := by
    rw [pow_add]; ring
  have hk : 1 + k - 1 = k := by omega
  have h4 : 4 ≤ min (4 * 2 ^ k) 40 := by
    have h1 : (1 : ℕ) ≤ 2 ^ k := Nat.one_le_two_pow
    have : 4 ≤ 4 * 2 ^ k := by nlinarith
    omega
  simp only [loginWait, waitExponential, hform, hk, Nat.zero_max]
  omega

theorem tenacityRunLogin_sleeps :
    (tenacityRunLogin siempreTransitorio).1 = [4, 8] := by decide

/- Helper lemmas about the watcher. -/

theorem tickResultado_props (previos : List (List Char)) (snap : Snapshot)
    (f : List Char) (h : tickResultado previos snap = some f) :
    f ∈ snap.archivos ∧ previos.contains f = false ∧
      esArchivoIncompleto f = false ∧ 0 < snap.tam f := by
  unfold tickResultado at h
  simp only [Option.bind_eq_some] at h
  obtain ⟨g, hh, hg⟩ := h
  have hmem : g ∈ (snap.archivos.filter (fun f => !previos.contains f)).filter
      (fun f => !esArchivoIncompleto f) := by
    rcases hl : (snap.archivos.filter (fun f => !previos.contains f)).filter
        (fun f => !esArchivoIncompleto f) with _ | ⟨a, t⟩
    · rw [hl] at hh; exact absurd hh (by simp)
    · rw [hl] at hh
      simp only [List.head?_cons] at hh
      exact (Option.some_inj.mp hh) ▸ List.mem_cons_self a t
  by_cases hs : 0 < snap.tam g
  · rw [if_pos hs] at hg
    obtain rfl : g = f := Option.some_inj.mp hg
    have h1 := List.mem_filter.mp hmem
    have h2 := List.mem_filter.mp h1.1
    refine ⟨h2.1, ?_, ?_, hs⟩
    · have := h2.2; simpa using this
    · have := h1.2; simpa using this
  · rw [if_neg hs] at hg; exact absurd hg (by simp)

theorem esperarGo_ok (previos : List (List Char)) :
    ∀ (traza : List Snapshot) (intervalo : ℚ) (f : List Char),
      (esperarGo previos traza intervalo).1 = Except.ok f →
      ∃ snap ∈ traza, tickResultado previos snap = some f := by
  intro traza
  induction traza with
  | nil => intro ι f h; exact absurd h (by simp [esperarGo])
  | cons snap resto ih =>
    intro ι f h
    unfold esperarGo at h
    rcases ht : tickResultado previos snap with _ | g
    · rw [ht] at h
      simp only at h
      obtain ⟨s, hs, hts⟩ := ih (min (ι * (3 / 2)) 6) f h
      exact ⟨s, List.mem_cons_of_mem _ hs, hts⟩
    · rw [ht] at h
      simp only at h
      obtain rfl : g = f := by
        have := congrArg (fun x => x) h
        simpa using h
      exact ⟨snap, List.mem_cons_self _ _, ht⟩

theorem esperarGo_error (previos : List (List Char)) :
    ∀ (traza : List Snapshot) (intervalo : ℚ),
      (∀ snap ∈ traza, tickResultado previos snap = none) →
      (esperarGo previos traza intervalo).1 = Except.error () := by
  intro traza
  induction traza with
  | nil => intro ι _; simp [esperarGo]
  | cons snap resto ih =>
    intro ι hall
    unfold esperarGo
    rw [hall snap (List.mem_cons_self _ _)]
    exact ih _ (fun s hs => hall s (List.mem_cons_of_mem _ hs))

theorem esperarGo_sleeps_head (previos : List (List Char)) :
    ∀ (traza : List Snapshot) (intervalo : ℚ),
      (esperarGo previos traza intervalo).2 = [] ∨
        ((esperarGo previos traza intervalo).2).head? = some intervalo := by
  intro traza
  induction traza with
  | nil => intro ι; left; simp [esperarGo]
  | cons snap resto _ =>
    intro ι
    unfold esperarGo
    rcases ht : tickResultado previos snap with _ | g
    · right; simp
    · left; simp

theorem esperarGo_sleeps_chain (previos : List (List Char)) :
    ∀ (traza : List Snapshot) (intervalo : ℚ),
      List.Chain' (fun a b => b = min (a * (3 / 2)) 6)
        ((esperarGo previos traza intervalo).2) := by
  intro traza
  induction traza with
  | nil => intro ι; simp [esperarGo]
  | cons snap resto ih =>
    intro ι
    unfold esperarGo
    rcases ht : tickResultado previos snap with _ | g
    · simp only
      rw [List.chain'_cons']
      constructor
      · intro y hy
        rcases esperarGo_sleeps_head previos resto (min (ι * (3 / 2)) 6) with hnil | hhd
        · rw [hnil] at hy; exact absurd hy (by simp)
        · rw [hhd] at hy
          exact (by simpa using hy : _ = y).symm
      · exact ih _
    · simp

theorem esperarGo_sleeps_cap (previos : List (List Char)) :
    ∀ (traza : List Snapshot) (intervalo : ℚ), intervalo ≤ 6 →
      ∀ x ∈ (esperarGo previos traza intervalo).2, x ≤ 6 := by
  intro traza
  induction traza with
  | nil => intro ι _ x hx; exact absurd hx (by simp [esperarGo])
  | cons snap resto ih =>
    intro ι hι x hx
    unfold esperarGo at hx
    rcases ht : tickResultado previos snap with _ | g
    · rw [ht] at hx
      simp only [List.mem_cons] at hx
      rcases hx with rfl | hx
      · exact hι
      · exact ih _ (min_le_right _ _) x hx
    · rw [ht] at hx; exact absurd hx (by simp)

theorem diasEnMes_pos (y : ℤ) (m : ℕ) : 1 ≤ diasEnMes y m := by
  unfold diasEnMes
  split
  · split <;> omega
  · split <;> omega

theorem restarUnDia_valida (d : Fecha) (h : fechaValida d) :
    fechaValida (restarUnDia d) := by
  obtain ⟨y, m, dia⟩ := d
  obtain ⟨hm1, hm2, hd1, hd2⟩ := h
  dsimp only [fechaValida] at hm1 hm2 hd1 hd2
  simp only [restarUnDia]
  split_ifs with h2 hm
  · exact ⟨hm1, hm2, by show 1 ≤ dia - 1; omega,
      by show dia - 1 ≤ diasEnMes y m; omega⟩
  · refine ⟨by show 1 ≤ m - 1; omega, by show m - 1 ≤ 12; omega, ?_, ?_⟩
    · show 1 ≤ diasEnMes y (m - 1); exact diasEnMes_pos _ _
    · show diasEnMes y (m - 1) ≤ diasEnMes y (m - 1); exact le_refl _
  · refine ⟨by norm_num, by norm_num, by norm_num, ?_⟩
    show 31 ≤ diasEnMes (y - 1) 12
    simp [diasEnMes]

theorem sigDia_restarUnDia (d : Fecha) (h : fechaValida d) :
    sigDia (restarUnDia d) = d := by
  obtain ⟨y, m, dia⟩ := d
  obtain ⟨hm1, hm2, hd1, hd2⟩ := h
  dsimp only [fechaValida] at hm1 hm2 hd1 hd2
  simp only [restarUnDia]
  split_ifs with h2 hm
  · show sigDia (Fecha.mk y m (dia - 1)) = Fecha.mk y m dia
    simp only [sigDia]
    rw [if_pos (by show dia - 1 < diasEnMes y m; omega)]
    congr 1
    omega
  · show sigDia (Fecha.mk y (m - 1) (diasEnMes y (m - 1))) = Fecha.mk y m dia
    simp only [sigDia]
    rw [if_neg (by omega), if_pos (by show m - 1 < 12; omega)]
    congr 1
    · omega
    · omega
  · show sigDia (Fecha.mk (y - 1) 12 31) = Fecha.mk y m dia
    simp only [sigDia]
    have hd31 : diasEnMes (y - 1) 12 = 31 := by simp [diasEnMes]
    rw [hd31]
    rw [if_neg (by omega), if_neg (by omega)]
    congr 1
    · omega
    · omega
    · omega

/- ====================================================================
   Helper lemmas about the retry loop and the extraction driver.
   ==================================================================== -/

theorem tenacityGo_sleeps (wait : ℕ → ℕ) (att : ℕ → AttemptResult) :
    ∀ (r n : ℕ), ∃ k, (tenacityGo wait att n r).1 =
      (List.range k).map (fun i => wait (n + i)) := by
  intro r
  induction r with
  | zero => intro n; exact ⟨0, by simp [tenacityGo]⟩
  | succ r ih =>
    intro n
    unfold tenacityGo
    cases hatt : att n with
    | ok => exact ⟨0, by simp⟩
    | fatal => exact ⟨0, by simp⟩
    | transient =>
      by_cases hr : r = 0
      · exact ⟨0, by simp [hr]⟩
      · rw [if_neg hr]
        obtain ⟨k, hk⟩ := ih (n + 1)
        refine ⟨k + 1, ?_⟩
        simp only
        rw [hk, List.range_succ_eq_map]
        have harr : ((fun i => wait (n + i)) ∘ Nat.succ) = (fun i => wait (n + 1 + i)) := by
          funext i
          simp only [Function.comp]
          congr 1
          omega
        simp only [List.map_cons, List.map_map, Nat.add_zero, harr]

theorem ejecutarExtraccionLoop_refina
    (descargar : Reporte → Except (List Char) (List Char))
    (recuperar : Reporte → Except (List Char) Unit) :
    ∀ (reportes : List Reporte) (rutas : List (List Char)),
      ejecutarExtraccionLoop descargar recuperar reportes = Except.ok rutas →
      rutas = (runContextOutcomes descargar reportes).filterMap rutaDeOutcome := by
  intro reportes
  induction reportes with
  | nil =>
    intro rutas h
    simp only [ejecutarExtraccionLoop, Except.ok.injEq] at h
    simp [← h, runContextOutcomes]
  | cons r resto ih =>
    intro rutas h
    unfold ejecutarExtraccionLoop at h
    cases hd : descargar r with
    | ok archivo =>
      rw [hd] at h
      cases hrest : ejecutarExtraccionLoop descargar recuperar resto with
      | ok rutas2 =>
        rw [hrest] at h
        simp only [Except.ok.injEq] at h
        subst h
        simp [runContextOutcomes, rutaDeOutcome, hd, ih rutas2 hrest,
          List.filterMap_cons]
      | error e2 =>
        rw [hrest] at h
        exact absurd h (by simp)
    | error e1 =>
      rw [hd] at h
      cases hrec : recuperar r with
      | ok _ =>
        rw [hrec] at h
        simp [runContextOutcomes, rutaDeOutcome, hd, ih rutas h,
          List.filterMap_cons]
      | error e2 =>
        rw [hrec] at h
        exact absurd h (by simp)

/- ====================================================================
   Claim theorems.
   ==================================================================== -/

/-- C1, as stated, is false on the code: the login policy stops after 3
attempts, so 5 consecutive transient failures produce the wait sequence
[4, 8], not [4, 8, 16, 32, 40]. -/
theorem c1_secuencia_contraejemplo :
    (tenacityRunLogin siempreTransitorio).1 = [4, 8] ∧
    (tenacityRunLogin siempreTransitorio).1 ≠ [4, 8, 16, 32, 40] := by
  constructor
  · decide
  · decide

/-- C1 (amended): for the authentication retry policy (base 4s, multiplier
2, cap 40s, stop after 3 attempts) the wait before retry n equals
min(4 * 2^(n-1), 40); in every run the i-th sleep is that curve at i; under
5 consecutive transient failures only two retries occur, with waits exactly
4, 8; the curve itself at retries 1..5 is 4, 8, 16, 32, 40. -/
theorem c1_backoff_amended :
    (∀ n : ℕ, 1 ≤ n → loginWait n = min (4 * 2 ^ (n - 1)) 40) ∧
    (∀ att : ℕ → AttemptResult, ∃ k, (tenacityRunLogin att).1 =
      (List.range k).map (fun i => loginWait (1 + i))) ∧
    (tenacityRunLogin siempreTransitorio).1 = [4, 8] ∧
    (List.range 5).map (fun i => loginWait (i + 1)) = [4, 8, 16, 32, 40] := by
  refine ⟨loginWait_formula, ?_, by decide, by decide⟩
  intro att
  exact tenacityGo_sleeps loginWait att 3 1

/-- C1 witness: the amended formula evaluated at the fifth retry. -/
theorem c1_backoff_witness : loginWait 5 = min (4 * 2 ^ (5 - 1)) 40 :=
  c1_backoff_amended.1 5 (by norm_num)

/-- C2, as stated, is false on the code: when the watcher times out while
the only new directory entry is still an in-progress .crdownload file, the
caller's post-timeout recheck (main.py:1093-1097) returns that partial name
as the completed download. -/
theorem c2_sufijo_contraejemplo :
    descargaTrasModal [] [snapSoloCrdownload] snapSoloCrdownload =
      Except.ok ("r.csv.crdownload".toList) ∧
    esArchivoIncompleto ("r.csv.crdownload".toList) = true := by
  constructor
  · rfl
  · rfl

/-- C2 (amended): within the watcher's polling loop a name with a
recognized partial-download suffix is never reported; the caller's single
post-timeout recheck, however, returns the first name of current minus
baseline without suffix or size filtering, so a partial-suffixed file can
be reported there. -/
theorem c2_sufijo_amended :
    (∀ (previos : List (List Char)) (traza : List Snapshot) (f : List Char),
      esperar_descarga_completa previos traza = Except.ok f →
      esArchivoIncompleto f = false) ∧
    (∀ (previos : List (List Char)) (traza : List Snapshot) (finSnap : Snapshot)
        (f : List Char),
      descargaTrasModal previos traza finSnap = Except.ok f →
      esperar_descarga_completa previos traza = Except.ok f ∨
        (finSnap.archivos.filter (fun g => !previos.contains g)).head? = some f) := by
  constructor
  · intro previos traza f h
    obtain ⟨snap, _, hts⟩ := esperarGo_ok previos traza 1 f h
    exact (tickResultado_props previos snap f hts).2.2.1
  · intro previos traza finSnap f h
    unfold descargaTrasModal at h
    cases hw : esperar_descarga_completa previos traza with
    | ok g =>
      rw [hw] at h
      left
      exact h
    | error u =>
      rw [hw] at h
      right
      cases hh : (finSnap.archivos.filter (fun g => !previos.contains g)).head? with
      | some g =>
        rw [hh] at h
        simp only [Except.ok.injEq] at h
        exact congrArg _ h
      | none =>
        rw [hh] at h
        simp at h

/-- C2 witness: the watcher-level exclusion applied to the trace in which
report23.csv completes after first appearing as a .crdownload entry. -/
theorem c2_sufijo_witness :
    esArchivoIncompleto ("report23.csv".toList) = false :=
  c2_sufijo_amended.1 previosEjemplo trazaEjemplo ("report23.csv".toList) rfl

/-- C3: the exit codes main's control flow produces are 0 on success and 1
for a generic failure, zero downloaded artifacts or zero transformable
rows; but a missing required secret aborts at module import, outside
main's EnvironmentError handler, so the process exits with code 1 — not
the claimed 2 — no matter what the rest of the run would have done. -/
theorem c3_exit_codes :
    codigoSalidaMain ResultadoMain.exitoso = 0 ∧
    codigoSalidaMain ResultadoMain.errorGenerico = 1 ∧
    codigoSalidaMain ResultadoMain.sinArchivos = 1 ∧
    codigoSalidaMain ResultadoMain.sinDatos = 1 ∧
    (∀ correr : List (List Char) → ResultadoMain,
      codigoSalidaScript entornoSinUsuario correr = 1) := by
  refine ⟨rfl, rfl, rfl, rfl, fun correr => rfl⟩

/-- C4: with a report list in which the first report exhausts its retry
budget (and the navigation recovery succeeds) and the second downloads, the
driver does not abort: it returns exactly the successful path, the
spec-level RunContext holds one Failed and one Success outcome in
configured order, processing continues past each recovered failure, and in
general the returned path list is the success projection of the outcome
sequence in configured order. -/
theorem c4_fault_isolation :
    (∀ (descargar : Reporte → Except (List Char) (List Char))
        (recuperar : Reporte → Except (List Char) Unit)
        (r1 r2 : Reporte) (e p : List Char),
      descargar r1 = Except.error e → recuperar r1 = Except.ok () →
      descargar r2 = Except.ok p →
      ejecutarExtraccionLoop descargar recuperar [r1, r2] = Except.ok [p] ∧
        runContextOutcomes descargar [r1, r2] =
          [ExtractionOutcome.failed e, ExtractionOutcome.success p]) ∧
    (∀ (descargar : Reporte → Except (List Char) (List Char))
        (recuperar : Reporte → Except (List Char) Unit)
        (r : Reporte) (resto : List Reporte) (e : List Char),
      descargar r = Except.error e → recuperar r = Except.ok () →
      ejecutarExtraccionLoop descargar recuperar (r :: resto) =
        ejecutarExtraccionLoop descargar recuperar resto) ∧
    (∀ (descargar : Reporte → Except (List Char) (List Char))
        (recuperar : Reporte → Except (List Char) Unit)
        (reportes : List Reporte) (rutas : List (List Char)),
      ejecutarExtraccionLoop descargar recuperar reportes = Except.ok rutas →
      rutas = (runContextOutcomes descargar reportes).filterMap rutaDeOutcome) := by
  refine ⟨?_, ?_, ?_⟩
  · intro descargar recuperar r1 r2 e p h1 h2 h3
    constructor
    · simp [ejecutarExtraccionLoop, h1, h2, h3]
    · simp [runContextOutcomes, h1, h3]
  · intro descargar recuperar r resto e h1 h2
    simp [ejecutarExtraccionLoop, h1, h2]
  · intro descargar recuperar reportes rutas h
    exact ejecutarExtraccionLoop_refina descargar recuperar reportes rutas h

/-- C4 witness: the two configured reports, the first exhausting retries,
the second succeeding. -/
theorem c4_fault_isolation_witness :
    ejecutarExtraccionLoop descargarEjemplo recuperarEjemplo
        [reporteConducta, reporteEstados] = Except.ok ["estados.csv".toList] ∧
      runContextOutcomes descargarEjemplo [reporteConducta, reporteEstados] =
        [ExtractionOutcome.failed ("reintentos agotados".toList),
         ExtractionOutcome.success ("estados.csv".toList)] :=
  c4_fault_isolation.1 descargarEjemplo recuperarEjemplo reporteConducta
    reporteEstados ("reintentos agotados".toList) ("estados.csv".toList) rfl rfl rfl

/-- C5, as stated, is false on the code: with no new window and no iframe
(the ambiguous-context case) the handler stays in the current context and
still returns true when a submit candidate matches there, instead of
returning false. -/
theorem c5_modal_contraejemplo :
    (manejar_modal_parametros entornoAmbiguo).contexto = ModalContexto.contextoActual ∧
    (manejar_modal_parametros entornoAmbiguo).exito = true := by
  exact ⟨rfl, rfl⟩

/-- C5 (amended): an unresolved navigation context is tolerated — the
handler remains in the current context and proceeds; it returns false
exactly when no candidate selector matches the modal's submit control, and
true only when a submit control was found and clicked. -/
theorem c5_modal_amended :
    ∀ e : ModalEntorno,
      ((manejar_modal_parametros e).exito = true ↔
        e.selectores.any (fun b => b) = true) ∧
      (e.ventanaNueva = false → e.hayIframes = false →
        (manejar_modal_parametros e).contexto = ModalContexto.contextoActual) := by
  intro e
  constructor
  · simp [manejar_modal_parametros]
  · intro h1 h2
    simp [manejar_modal_parametros, h1, h2]

/-- C5 witness: the amended characterization applied to an interaction
with no popup and no iframe. -/
theorem c5_modal_witness :
    (manejar_modal_parametros entornoAmbiguo).contexto = ModalContexto.contextoActual :=
  (c5_modal_amended entornoAmbiguo).2 rfl rfl

/-- C6: the watcher returns a name only if, at some tick, it is in current
minus baseline, carries no recognized partial-download suffix and has
non-zero size; a trace with no qualifying tick yields the timeout error;
and the sleep sequence starts at the 1-second minimum, grows by the factor
1.5 after each unsuccessful check and is capped at 6 seconds. -/
theorem c6_download_watcher :
    (∀ (previos : List (List Char)) (traza : List Snapshot) (f : List Char),
      esperar_descarga_completa previos traza = Except.ok f →
      ∃ snap ∈ traza, f ∈ snap.archivos ∧ previos.contains f = false ∧
        esArchivoIncompleto f = false ∧ 0 < snap.tam f) ∧
    (∀ (previos : List (List Char)) (traza : List Snapshot),
      (∀ snap ∈ traza, tickResultado previos snap = none) →
      esperar_descarga_completa previos traza = Except.error ()) ∧
    (∀ (previos : List (List Char)) (traza : List Snapshot),
      esperasDescarga previos traza ≠ [] →
      (esperasDescarga previos traza).head? = some 1) ∧
    (∀ (previos : List (List Char)) (traza : List Snapshot),
      List.Chain' (fun a b => b = min (a * (3 / 2)) 6) (esperasDescarga previos traza)) ∧
    (∀ (previos : List (List Char)) (traza : List Snapshot),
      ∀ x ∈ esperasDescarga previos traza, x ≤ 6) := by
  refine ⟨?_, ?_, ?_, ?_, ?_⟩
  · intro previos traza f h
    obtain ⟨snap, hmem, hts⟩ := esperarGo_ok previos traza 1 f h
    obtain ⟨h1, h2, h3, h4⟩ := tickResultado_props previos snap f hts
    exact ⟨snap, hmem, h1, h2, h3, h4⟩
  · intro previos traza h
    exact esperarGo_error previos traza 1 h
  · intro previos traza hne
    rcases esperarGo_sleeps_head previos traza 1 with hnil | hhd
    · exact absurd hnil hne
    · exact hhd
  · intro previos traza
    exact esperarGo_sleeps_chain previos traza 1
  · intro previos traza
    exact esperarGo_sleeps_cap previos traza 1 (by norm_num)

/-- C6 witness: the specification's own example trace — baseline a.txt, a
tick with report23.csv.crdownload, then report23.csv of size 100 — on
which the watcher returns report23.csv. -/
theorem c6_download_watcher_witness :
    ∃ snap ∈ trazaEjemplo, "report23.csv".toList ∈ snap.archivos ∧
      previosEjemplo.contains ("report23.csv".toList) = false ∧
      esArchivoIncompleto ("report23.csv".toList) = false ∧
      0 < snap.tam ("report23.csv".toList) :=
  c6_download_watcher.1 previosEjemplo trazaEjemplo ("report23.csv".toList) rfl

/-- C7: for every valid current date the computed business date is the
valid calendar day whose successor is the current date (one calendar day
back), formatted DD/MM/YYYY; across the 2024 leap-year month boundary the
result is 29/02/2024 and across the 2025 year boundary it is 31/12/2024. -/
theorem c7_fecha_ayer :
    (∀ d : Fecha, fechaValida d →
      fechaValida (restarUnDia d) ∧ sigDia (restarUnDia d) = d ∧
        calcular_fecha_ayer d = strftimeDMY (restarUnDia d)) ∧
    calcular_fecha_ayer (Fecha.mk 2024 3 1) = "29/02/2024" ∧
    calcular_fecha_ayer (Fecha.mk 2025 1 1) = "31/12/2024" := by
  refine ⟨fun d h => ⟨restarUnDia_valida d h, sigDia_restarUnDia d h, rfl⟩, ?_, ?_⟩
  · rfl
  · rfl

/-- C7 witness: the general statement applied to 01/03/2024. -/
theorem c7_fecha_ayer_witness :
    fechaValida (restarUnDia (Fecha.mk 2024 3 1)) ∧
      sigDia (restarUnDia (Fecha.mk 2024 3 1)) = Fecha.mk 2024 3 1 ∧
      calcular_fecha_ayer (Fecha.mk 2024 3 1) =
        strftimeDMY (restarUnDia (Fecha.mk 2024 3 1)) :=
  c7_fecha_ayer.1 (Fecha.mk 2024 3 1) (by decide)

/-- C8: context recovery never raises — whatever each driver primitive
does, including failures inside the forced reset to the root document and
first window handle, cerrar_modal_y_volver returns normally. -/
theorem c8_recovery_never_raises :
    ∀ e : RecuperacionEntorno, cerrar_modal_y_volver e = Except.ok () := by
  intro e
  unfold cerrar_modal_y_volver
  cases cerrarModalCuerpo e with
  | ok u => rfl
  | error u =>
    cases e.resetRaiz with
    | ok v => rfl
    | error v => rfl

/-- C9: the selector returns false immediately on GRID_NOT_FOUND without
trying the fallback, attempts the DOM fallback on ID_NOT_FOUND and returns
true if it succeeds, returns true without the fallback when the grid API
selects the row, and returns false only when the primary strategy did not
select and any attempted fallback failed. -/
theorem c9_selector :
    ∀ e : SeleccionEntorno,
      (e.scriptJs = Except.ok ResultadoJs.gridNoEncontrado →
        seleccionar_fila_reporte e = SeleccionResultado.mk false false) ∧
      (e.scriptJs = Except.ok ResultadoJs.idNoEncontrado →
        (seleccionar_fila_reporte e).fallbackIntentado = true ∧
        (e.fallbackDom = Except.ok () → (seleccionar_fila_reporte e).exito = true)) ∧
      (e.scriptJs = Except.ok ResultadoJs.okSeleccion →
        seleccionar_fila_reporte e = SeleccionResultado.mk true false) ∧
      ((seleccionar_fila_reporte e).exito = false →
        e.scriptJs ≠ Except.ok ResultadoJs.okSeleccion ∧
        (e.scriptJs = Except.ok ResultadoJs.idNoEncontrado →
          e.fallbackDom = Except.error ())) := by
  intro e
  obtain ⟨js, fb⟩ := e
  rcases js with ⟨⟩ | r
  · simp [seleccionar_fila_reporte]
  · rcases fb with ⟨⟩ | ⟨⟩ <;> rcases r <;> simp [seleccionar_fila_reporte]

/-- C9 witness: grid-unavailable returns false with no fallback attempt. -/
theorem c9_selector_witness :
    seleccionar_fila_reporte entornoGridNoEncontrado = SeleccionResultado.mk false false :=
  (c9_selector entornoGridNoEncontrado).1 rfl

